import Mathlib

/-!
Shallow embedding of fastapi_third_party_auth/auth.py: the OIDC bearer-token
authenticator (Auth.required, Auth.optional, Auth.authenticate_user,
Auth._find_key) together with the parts of its collaborators that the
verification claims depend on (the jose jwt.decode claim checks, the
discovery cache reachability behaviour, and the pluggable identity model),
which are modelled from the specification where noted.
-/

deriving instance DecidableEq for Except

namespace ThirdPartyAuth

/-- Python str.split(sep) for a one-character separator, on the character
list: consecutive separators yield empty pieces and the empty input yields
one empty piece, exactly as in Python. -/
def splitOnChar (sep : Char) (cs : List Char) : List (List Char) :=
  match cs with
  | [] => [[]]
  | c :: rest =>
    if c = sep then [] :: splitOnChar sep rest
    else
      match splitOnChar sep rest with
      | [] => [[c]]
      | g :: gs => (c :: g) :: gs

/-- Python str.split(sep) on strings (structural recursion so that concrete
instances evaluate inside the kernel). -/
def pySplit (s : String) (sep : Char) : List String :=
  (splitOnChar sep s.data).map (fun cs => ⟨cs⟩)

/-- Python str.lower(), character by character. -/
def lowerString (s : String) : String := ⟨s.data.map Char.toLower⟩

/-- A JSON Web Key as the code reads it: an optional "kid" field plus the key
material (the remaining JWK fields are never inspected by auth.py, so they are
collapsed into one `material` string). -/
structure JWK where
  kid : Option String
  material : String
deriving DecidableEq

/-- The JWKS payload returned by `discover.public_keys`: a JSON object that may
or may not carry a "keys" list (auth.py accesses `[...]["keys"]` and treats a
KeyError as a badly formed JWKS). -/
structure JWKSPayload where
  keys : Option (List JWK)
deriving DecidableEq

/-- The decoded "aud" claim: per OIDC it is either a single string or a list of
strings (auth.py tests `type(id_token["aud"]) == list`). -/
inductive Aud where
  | str (s : String)
  | list (l : List String)
deriving DecidableEq

/-- The decoded token payload, restricted to the claims auth.py inspects:
"iss", "aud", "azp", "exp" and "scope". `none` means the claim is absent. -/
structure Payload where
  iss : Option String
  aud : Option Aud
  azp : Option String
  exp : Option Int
  scope : Option String
deriving DecidableEq

/-- A raw JWT as the embedding sees it: the "kid" field of its unverified
header, its payload, the key material that its signature verifies against
(abstracting the cryptographic signature), and the algorithm of its header. -/
structure Token where
  header_kid : Option String
  payload : Payload
  sig_key : String
  alg : String
deriving DecidableEq

/-- HTTPAuthorizationCredentials: the declared scheme plus the bearer token. -/
structure Credentials where
  scheme : String
  credentials : Token
deriving DecidableEq

/-- The distinguished errors raised by Auth._find_key: JWKError("Badly formed
JWKs_uri"), JWTError for a missing header "kid", JWKError for a JWK entry
missing its "kid", and JWKError for a "kid" matched by no entry. -/
inductive FindKeyError where
  | badlyFormedJWKS
  | headerKidMissing
  | jwkKidMissing
  | kidNotFound (kid : String)
deriving DecidableEq

/-- The `for key in keys` loop of Auth._find_key: raise on the first entry
that lacks a "kid", return the first entry whose "kid" equals the token one,
raise kidNotFound when the list is exhausted. -/
def find_key_scan (keys : List JWK) (kid : String) : Except FindKeyError JWK :=
  match keys with
  | [] => .error (.kidNotFound kid)
  | key :: rest =>
    match key.kid with
    | none => .error .jwkKidMissing
    | some key_kid => if key_kid = kid then .ok key else find_key_scan rest kid

/-- Auth._find_key: look up "keys" in the JWKS payload, read the "kid" from
the unverified token header, then scan the key list. -/
def find_key (jwks : JWKSPayload) (token : Token) : Except FindKeyError JWK :=
  match jwks.keys with
  | none => .error .badlyFormedJWKS
  | some keys =>
    match token.header_kid with
    | none => .error .headerKidMissing
    | some kid => find_key_scan keys kid

/-- The failure kinds that jwt.decode and the azp check can raise inside the
try block of authenticate_user; all are subclasses of the caught
(ExpiredSignatureError, JWTError, JWTClaimsError). -/
inductive DecodeError where
  | signatureInvalid
  | expiredSignature
  | invalidIssuer
  | invalidAudience
  | missingAzp
deriving DecidableEq

/-- The diagnostic text each failure kind carries (the jose exception message,
or for missingAzp the message raised by auth.py itself). -/
def DecodeError.msg : DecodeError → String
  | .signatureInvalid => "Signature verification failed."
  | .expiredSignature => "Signature has expired."
  | .invalidIssuer => "Invalid issuer"
  | .invalidAudience => "Invalid audience"
  | .missingAzp =>
      "Missing authorized party \"azp\" in IDToken when there are multiple audiences"

/-- Modelled from the spec: jose signature verification (ClaimValidator step 1,
missing from src). The signature is valid when the token algorithm is among the
provider advertised algorithms and the token signature verifies against the
resolved key material. -/
def sigOk (token : Token) (key : JWK) (algorithms : List String) : Bool :=
  algorithms.contains token.alg && token.sig_key == key.material

/-- Modelled from the spec: jose expiry verification (ClaimValidator step 2,
missing from src). A present "exp" must lie strictly in the future; an absent
"exp" is not checked. -/
def expOk (p : Payload) (now : Int) : Bool :=
  match p.exp with
  | none => true
  | some e => now < e

/-- Modelled from the spec: jose issuer verification (ClaimValidator step 3,
missing from src): "iss" must equal the configured issuer exactly. -/
def issOk (issuer : Option String) (p : Payload) : Bool :=
  match issuer with
  | none => true
  | some i => p.iss == some i

/-- Membership of a client id in the "aud" claim: equality for a string
audience, list membership for a list audience. -/
def audContains (aud : Aud) (cid : String) : Bool :=
  match aud with
  | .str s => s == cid
  | .list l => l.contains cid

/-- Modelled from the spec: jose audience verification (ClaimValidator step 4,
missing from src): the configured client id must be present in "aud". -/
def audOk (client_id : Option String) (p : Payload) : Bool :=
  match client_id with
  | none => true
  | some cid =>
    match p.aud with
    | none => false
    | some a => audContains a cid

/-- The options dict passed to jwt.decode: verify_iss and verify_aud flags
(verify_at_hash is disabled in auth.py and at_hash is never modelled). -/
structure DecodeOptions where
  verify_iss : Bool
  verify_aud : Bool
deriving DecidableEq

/-- Modelled from the spec: jose jwt.decode (missing from src). Checks run in
order: signature, expiry, then issuer and audience each only when its verify
flag is set; the first failure wins, success returns the decoded payload. -/
def jwtDecode (token : Token) (key : JWK) (algorithms : List String)
    (issuer : Option String) (audience : Option String)
    (opts : DecodeOptions) (now : Int) : Except DecodeError Payload :=
  if ! sigOk token key algorithms then .error .signatureInvalid
  else if ! expOk token.payload now then .error .expiredSignature
  else if opts.verify_iss && ! issOk issuer token.payload then .error .invalidIssuer
  else if opts.verify_aud && ! audOk audience token.payload then .error .invalidAudience
  else .ok token.payload

/-- The authorized-party test of authenticate_user: "aud" present, of list
type, with at least one entry, and "azp" absent. -/
def azpInvalid (p : Payload) : Bool :=
  match p.aud with
  | some (.list l) => decide (1 ≤ l.length) && p.azp.isNone
  | _ => false

/-- The Auth configuration relevant to authentication: optional issuer,
optional client_id, statically configured scopes, and (modelled from the spec,
idtoken_types missing from src) the claim names the pluggable identity model
requires at construction. -/
structure AuthConfig where
  issuer : Option String
  client_id : Option String
  scopes : List String
  requiredFields : List String
deriving DecidableEq

/-- The call jwt.decode(credentials, key, algorithms, issuer=self.issuer,
audience=self.client_id, options=dict(verify_iss=self.issuer is not None,
verify_aud=self.client_id is not None)) of authenticate_user. -/
def decodeAsConfigured (cfg : AuthConfig) (token : Token) (key : JWK)
    (algorithms : List String) (now : Int) : Except DecodeError Payload :=
  jwtDecode token key algorithms cfg.issuer cfg.client_id
    ⟨cfg.issuer.isSome, cfg.client_id.isSome⟩ now

/-- The body of the try block of authenticate_user: jwt.decode followed by the
authorized-party check, both failures caught alike by the except clause. -/
def decodeAndCheckAzp (cfg : AuthConfig) (token : Token) (key : JWK)
    (algorithms : List String) (now : Int) : Except DecodeError Payload :=
  match decodeAsConfigured cfg token key algorithms now with
  | .error e => .error e
  | .ok p => if azpInvalid p then .error .missingAzp else .ok p

/-- token_scopes = id_token.get("scope", "").split(" "): in particular the
empty string splits into the one-element list containing the empty string. -/
def tokenScopes (p : Payload) : List String :=
  pySplit (p.scope.getD "") ' '

/-- expected_scopes = set(self.scopes + security_scopes.scopes): the union of
the statically configured scopes and the endpoint declared scopes (kept as a
concatenated list; only membership is ever used). -/
def requiredScopes (cfgScopes epScopes : List String) : List String :=
  cfgScopes ++ epScopes

/-- expected_scopes.issubset(token_scopes): every required scope occurs among
the token scopes. -/
def scopeCheck (cfgScopes epScopes : List String) (p : Payload) : Bool :=
  (requiredScopes cfgScopes epScopes).all (fun s => (tokenScopes p).contains s)

/-- The identity record built from the verified claims; its pluggable shape is
collapsed to the claim mapping it is constructed from. -/
structure Identity where
  claims : Payload
deriving DecidableEq

/-- The failures that can escape authenticate_user: a raised HTTPException
(status code and detail), a jose error raised by _find_key outside any except
clause, or (modelled from the spec) an identity construction failure. -/
inductive AuthError where
  | http (status : Nat) (detail : String)
  | joseError (e : FindKeyError)
  | identityConstructionError
deriving DecidableEq

/-- Presence of a claim name in the payload (the flat claim mapping restricted
to the fields the embedding carries). -/
def Payload.hasClaim (p : Payload) (f : String) : Bool :=
  if f = "iss" then p.iss.isSome
  else if f = "aud" then p.aud.isSome
  else if f = "azp" then p.azp.isSome
  else if f = "exp" then p.exp.isSome
  else if f = "scope" then p.scope.isSome
  else false

/-- Modelled from the spec: self.idtoken_model(**id_token) (idtoken_types is
missing from src). The identity model validates its required fields at
construction time and fails with a dedicated IdentityConstructionError when
one is missing. -/
def constructIdentity (requiredFields : List String) (p : Payload) :
    Except AuthError Identity :=
  if requiredFields.all p.hasClaim then .ok ⟨p⟩ else .error .identityConstructionError

/-- Modelled from the spec: the state of the discovery cache refresh at the
time of the call (the discovery module is missing from src). `reachable` is
whether the metadata and JWKS fetch succeeds; within one call the snapshot is
fetched once, so _find_key and signing_algos read the same snapshot. -/
structure Discovery where
  reachable : Bool
  jwks : JWKSPayload
  algorithms : List String
deriving DecidableEq

/-- Auth.authenticate_user: credential and scheme gate, discovery fetch with
ConnectionError mapped to HTTPException 503, key lookup (whose jose errors
escape uncaught), jwt.decode plus azp check mapped to HTTPException 401
"Unauthorized: ...", the scope subset check mapped to HTTPException 401
"Missing scope token ...", and finally identity construction. -/
def authenticate_user (cfg : AuthConfig) (disc : Discovery)
    (security_scopes : List String) (cred : Option Credentials)
    (auto_error : Bool) (now : Int) : Except AuthError (Option Identity) :=
  match cred with
  | none =>
      if auto_error then .error (.http 401 "Missing bearer token") else .ok none
  | some c =>
      if lowerString c.scheme ≠ "bearer" then
        if auto_error then .error (.http 401 "Missing bearer token") else .ok none
      else if ! disc.reachable then
        .error (.http 503 "Could not reach auth server")
      else
        match find_key disc.jwks c.credentials with
        | .error e => .error (.joseError e)
        | .ok key =>
          match decodeAndCheckAzp cfg c.credentials key disc.algorithms now with
          | .error e => .error (.http 401 ("Unauthorized: " ++ e.msg))
          | .ok id_token =>
            if ! scopeCheck cfg.scopes security_scopes id_token then
              .error (.http 401 ("Missing scope token, expected "
                ++ toString (requiredScopes cfg.scopes security_scopes)
                ++ " to be a subset of received " ++ toString (tokenScopes id_token)))
            else
              (constructIdentity cfg.requiredFields id_token).map some

/-- Auth.required: authenticate_user with auto_error=True; a None result is
turned into a bare HTTPException 401 (FastAPI supplies the default detail,
modelled as the empty string). -/
def required (cfg : AuthConfig) (disc : Discovery) (security_scopes : List String)
    (cred : Option Credentials) (now : Int) : Except AuthError Identity :=
  match authenticate_user cfg disc security_scopes cred true now with
  | .error e => .error e
  | .ok none => .error (.http 401 "")
  | .ok (some id_token) => .ok id_token

/-- Auth.optional: authenticate_user with auto_error=False. -/
def optional (cfg : AuthConfig) (disc : Discovery) (security_scopes : List String)
    (cred : Option Credentials) (now : Int) : Except AuthError (Option Identity) :=
  authenticate_user cfg disc security_scopes cred false now

/-! ## Claim theorems -/

/-- Claim C1: for every token signed with a key present in the cached JWKS,
with exp in the future, issuer and audience matching the configured values,
azp present whenever aud is a list, and token scopes covering the required
scopes, Auth.required returns an Identity constructed from the token decoded
claims rather than failing (the pluggable identity model is assumed able to
construct from those claims). -/
theorem C1_required_success (cfg : AuthConfig) (disc : Discovery)
    (security_scopes : List String) (c : Credentials) (now : Int) (key : JWK)
    (hscheme : lowerString c.scheme = "bearer")
    (hreach : disc.reachable = true)
    (hfind : find_key disc.jwks c.credentials = .ok key)
    (hsig : sigOk c.credentials key disc.algorithms = true)
    (hexp : expOk c.credentials.payload now = true)
    (hiss : issOk cfg.issuer c.credentials.payload = true)
    (haud : audOk cfg.client_id c.credentials.payload = true)
    (hazp : azpInvalid c.credentials.payload = false)
    (hscope : scopeCheck cfg.scopes security_scopes c.credentials.payload = true)
    (hfields : cfg.requiredFields.all c.credentials.payload.hasClaim = true) :
    required cfg disc security_scopes (some c) now = .ok ⟨c.credentials.payload⟩ := by
  simp [required, authenticate_user, hscheme, hreach, hfind, decodeAndCheckAzp,
    decodeAsConfigured, jwtDecode, hsig, hexp, hiss, haud, hazp, hscope,
    constructIdentity, hfields, Except.map]

/-- Claim C1 witness: a concrete fully valid token accepted by required. -/
theorem C1_required_success_witness :
    required ⟨some "https://iss.example", some "cid", ["read"], ["iss", "exp"]⟩
      ⟨true, ⟨some [⟨some "k1", "m"⟩]⟩, ["RS256"]⟩ ["write"]
      (some ⟨"Bearer", ⟨some "k1",
        ⟨some "https://iss.example", some (.str "cid"), none, some 100,
          some "read write extra"⟩, "m", "RS256"⟩⟩) 0
      = .ok ⟨⟨some "https://iss.example", some (.str "cid"), none, some 100,
          some "read write extra"⟩⟩ :=
  C1_required_success _ _ _ _ _ ⟨some "k1", "m"⟩ (by decide) (by decide) (by decide)
    (by decide) (by decide) (by decide) (by decide) (by decide) (by decide) (by decide)

/-- Claim C2 counterexample: with JWKS keys [{kid "a"}, {no kid}] and token
kid "a", a JWKS entry lacks its "kid" field, a case the claim lists among
those in which key lookup fails; yet find_key succeeds, because the matching
entry precedes the kid-less one in the scan. -/
theorem C2_counterexample :
    (([⟨some "a", "m"⟩, ⟨none, "x"⟩] : List JWK).any (fun k => k.kid.isNone)) = true ∧
    find_key ⟨some [⟨some "a", "m"⟩, ⟨none, "x"⟩]⟩
      ⟨some "a", ⟨none, none, none, none, none⟩, "m", "RS256"⟩
      = .ok ⟨some "a", "m"⟩ := by
  constructor
  · decide
  · decide

/-- The scan loop returns a key exactly when that key is the first entry whose
kid equals the token one and every earlier entry carries a different kid (in
particular no earlier entry lacks its kid). -/
theorem find_key_scan_ok_iff (keys : List JWK) (kid : String) (k : JWK) :
    find_key_scan keys kid = .ok k ↔
      ∃ before after, keys = before ++ k :: after ∧ k.kid = some kid ∧
        ∀ e ∈ before, ∃ s, e.kid = some s ∧ s ≠ kid := by
  induction keys with
  | nil =>
    simp [find_key_scan]
  | cons key rest ih =>
    cases hk : key.kid with
    | none =>
      simp only [find_key_scan, hk]
      constructor
      · intro h
        exact absurd h (by simp)
      · rintro ⟨before, after, heq, hkid, hall⟩
        exfalso
        cases before with
        | nil =>
          simp only [List.nil_append, List.cons.injEq] at heq
          rw [heq.1] at hk
          rw [hk] at hkid
          cases hkid
        | cons b bs =>
          simp only [List.cons_append, List.cons.injEq] at heq
          obtain ⟨s, hs, _⟩ := hall b (by simp)
          rw [← heq.1, hk] at hs
          cases hs
    | some key_kid =>
      by_cases hkk : key_kid = kid
      · subst hkk
        simp only [find_key_scan, hk, if_pos rfl]
        constructor
        · intro h
          injection h with h
          subst h
          exact ⟨[], rest, rfl, hk, by simp⟩
        · rintro ⟨before, after, heq, hkid, hall⟩
          cases before with
          | nil =>
            simp only [List.nil_append, List.cons.injEq] at heq
            rw [heq.1]
            simp
          | cons b bs =>
            simp only [List.cons_append, List.cons.injEq] at heq
            obtain ⟨s, hs, hsne⟩ := hall b (by simp)
            rw [← heq.1, hk] at hs
            injection hs with hs
            exact absurd hs.symm hsne
      · simp only [find_key_scan, hk, if_neg hkk]
        rw [ih]
        constructor
        · rintro ⟨before, after, heq, hkid, hall⟩
          refine ⟨key :: before, after, by rw [heq, List.cons_append], hkid, ?_⟩
          intro e he
          rcases List.mem_cons.mp he with he | he
          · exact ⟨key_kid, by rw [he, hk], hkk⟩
          · exact hall e he
        · rintro ⟨before, after, heq, hkid, hall⟩
          cases before with
          | nil =>
            simp only [List.nil_append, List.cons.injEq] at heq
            rw [← heq.1, hk] at hkid
            injection hkid with hkid
            exact absurd hkid hkk
          | cons b bs =>
            simp only [List.cons_append, List.cons.injEq] at heq
            refine ⟨bs, after, heq.2, hkid, ?_⟩
            intro e he
            exact hall e (by simp [he])

/-- Claim C2 amended: find_key fails with a distinguished FindKeyError exactly
when the JWKS payload lacks a "keys" list, the token header lacks a "kid", or
the scan in JWKS order meets an entry lacking a "kid", or the end of the
list, before any entry whose key-id equals the token one; otherwise it
returns the first key in JWKS order whose key-id is exactly string-equal to
the token one (every earlier entry bearing a different key-id). -/
theorem C2_find_key_first_match (jwks : JWKSPayload) (token : Token) :
    (jwks.keys = none → find_key jwks token = .error .badlyFormedJWKS) ∧
    (∀ keys, jwks.keys = some keys → token.header_kid = none →
      find_key jwks token = .error .headerKidMissing) ∧
    (∀ keys kid k, jwks.keys = some keys → token.header_kid = some kid →
      (find_key jwks token = .ok k ↔
        ∃ before after, keys = before ++ k :: after ∧ k.kid = some kid ∧
          ∀ e ∈ before, ∃ s, e.kid = some s ∧ s ≠ kid)) := by
  refine ⟨fun h => by simp [find_key, h], fun keys h1 h2 => by simp [find_key, h1, h2],
    fun keys kid k h1 h2 => ?_⟩
  simp only [find_key, h1, h2]
  exact find_key_scan_ok_iff keys kid k

/-- Claim C2 amended witness: the first matching key is returned even when it
is not the head of the list. -/
theorem C2_find_key_first_match_witness :
    find_key ⟨some [⟨some "b", "m1"⟩, ⟨some "a", "m2"⟩]⟩
      ⟨some "a", ⟨none, none, none, none, none⟩, "m2", "RS256"⟩
      = .ok ⟨some "a", "m2"⟩ :=
  ((C2_find_key_first_match ⟨some [⟨some "b", "m1"⟩, ⟨some "a", "m2"⟩]⟩
      ⟨some "a", ⟨none, none, none, none, none⟩, "m2", "RS256"⟩).2.2
    [⟨some "b", "m1"⟩, ⟨some "a", "m2"⟩] "a" ⟨some "a", "m2"⟩ rfl rfl).mpr
    ⟨[⟨some "b", "m1"⟩], [], rfl, rfl, by
      intro e he
      simp only [List.mem_singleton] at he
      subst he
      exact ⟨"b", rfl, by decide⟩⟩

/-- Success inversion for jwt.decode: an ok result carries exactly the token
payload. -/
theorem jwtDecode_ok (token : Token) (key : JWK) (algorithms : List String)
    (issuer audience : Option String) (opts : DecodeOptions) (now : Int)
    (p : Payload)
    (h : jwtDecode token key algorithms issuer audience opts now = .ok p) :
    p = token.payload := by
  unfold jwtDecode at h
  split_ifs at h
  injection h with h
  exact h.symm

/-- Success inversion for the try-block body: an ok result is the token
payload and it passed the authorized-party check. -/
theorem decodeAndCheckAzp_ok (cfg : AuthConfig) (tok : Token) (key : JWK)
    (algs : List String) (now : Int) (p : Payload)
    (h : decodeAndCheckAzp cfg tok key algs now = .ok p) :
    p = tok.payload ∧ azpInvalid p = false := by
  cases hd : decodeAsConfigured cfg tok key algs now with
  | error e =>
    have hv : decodeAndCheckAzp cfg tok key algs now = .error e := by
      simp [decodeAndCheckAzp, hd]
    rw [hv] at h
    exact Except.noConfusion h
  | ok q =>
    have hq : q = tok.payload := jwtDecode_ok _ _ _ _ _ _ _ _ hd
    subst hq
    cases hz : azpInvalid tok.payload with
    | true =>
      have hv : decodeAndCheckAzp cfg tok key algs now = .error .missingAzp := by
        simp [decodeAndCheckAzp, hd, hz]
      rw [hv] at h
      exact Except.noConfusion h
    | false =>
      have hv : decodeAndCheckAzp cfg tok key algs now = .ok tok.payload := by
        simp [decodeAndCheckAzp, hd, hz]
      rw [hv] at h
      injection h with h
      subst h
      exact ⟨rfl, hz⟩

/-- Case analysis of authenticate_user under a bearer credential: the call
either fails with some error, or returns the identity built from the token
payload, which then passed the authorized-party check. -/
theorem authenticate_user_bearer_inv (cfg : AuthConfig) (disc : Discovery)
    (scopes : List String) (c : Credentials) (auto_error : Bool) (now : Int)
    (hs : lowerString c.scheme = "bearer") :
    (∃ e, authenticate_user cfg disc scopes (some c) auto_error now = .error e) ∨
    (authenticate_user cfg disc scopes (some c) auto_error now =
        .ok (some ⟨c.credentials.payload⟩) ∧
      azpInvalid c.credentials.payload = false) := by
  cases hr : disc.reachable with
  | false =>
    exact Or.inl ⟨.http 503 "Could not reach auth server",
      by simp [authenticate_user, hs, hr]⟩
  | true =>
    cases hf : find_key disc.jwks c.credentials with
    | error e =>
      exact Or.inl ⟨.joseError e, by simp [authenticate_user, hs, hr, hf]⟩
    | ok key =>
      cases hd : decodeAndCheckAzp cfg c.credentials key disc.algorithms now with
      | error e =>
        exact Or.inl ⟨.http 401 ("Unauthorized: " ++ e.msg),
          by simp [authenticate_user, hs, hr, hf, hd]⟩
      | ok p =>
        obtain ⟨hp, hz⟩ := decodeAndCheckAzp_ok cfg c.credentials key
          disc.algorithms now p hd
        subst hp
        cases hsc : scopeCheck cfg.scopes scopes c.credentials.payload with
        | false =>
          exact Or.inl ⟨.http 401 ("Missing scope token, expected "
              ++ toString (requiredScopes cfg.scopes scopes)
              ++ " to be a subset of received "
              ++ toString (tokenScopes c.credentials.payload)),
            by simp [authenticate_user, hs, hr, hf, hd, hsc]⟩
        | true =>
          cases hcon : cfg.requiredFields.all c.credentials.payload.hasClaim with
          | false =>
            exact Or.inl ⟨.identityConstructionError,
              by simp [authenticate_user, hs, hr, hf, hd, hsc,
                constructIdentity, hcon, Except.map]⟩
          | true =>
            exact Or.inr ⟨by simp [authenticate_user, hs, hr, hf, hd, hsc,
                constructIdentity, hcon, Except.map], hz⟩

/-- Success inversion for authenticate_user with a credential supplied: a
returned identity is built from the very payload of the supplied token, which
passed the authorized-party check. -/
theorem authenticate_user_ok_some (cfg : AuthConfig) (disc : Discovery)
    (scopes : List String) (c : Credentials) (auto_error : Bool) (now : Int)
    (id_token : Identity)
    (h : authenticate_user cfg disc scopes (some c) auto_error now =
      .ok (some id_token)) :
    id_token.claims = c.credentials.payload ∧
    azpInvalid c.credentials.payload = false := by
  by_cases hs : lowerString c.scheme = "bearer"
  · rcases authenticate_user_bearer_inv cfg disc scopes c auto_error now hs with
      ⟨e, he⟩ | ⟨hv, hz⟩
    · rw [he] at h
      exact Except.noConfusion h
    · rw [hv] at h
      injection h with h
      injection h with h
      subst h
      exact ⟨rfl, hz⟩
  · cases ha : auto_error with
    | true =>
      have hv : authenticate_user cfg disc scopes (some c) auto_error now =
          .error (.http 401 "Missing bearer token") := by
        simp [authenticate_user, hs, ha]
      rw [hv] at h
      exact Except.noConfusion h
    | false =>
      have hv : authenticate_user cfg disc scopes (some c) auto_error now =
          .ok none := by
        simp [authenticate_user, hs, ha]
      rw [hv] at h
      injection h with h
      exact Option.noConfusion h

/-- A bearer credential never yields the None result: authenticate_user then
either fails or returns an identity. -/
theorem authenticate_user_bearer_not_none (cfg : AuthConfig) (disc : Discovery)
    (scopes : List String) (c : Credentials) (auto_error : Bool) (now : Int)
    (hs : lowerString c.scheme = "bearer") :
    authenticate_user cfg disc scopes (some c) auto_error now ≠ .ok none := by
  intro h
  rcases authenticate_user_bearer_inv cfg disc scopes c auto_error now hs with
    ⟨e, he⟩ | ⟨hv, -⟩
  · rw [he] at h
    exact Except.noConfusion h
  · rw [hv] at h
    injection h with h
    exact Option.noConfusion h

/-- Claim C3: a decoded token whose aud claim is a nonempty list and which
lacks an azp claim trips the authorized-party check, and can never make
authenticate_user produce an identity, whatever the configuration (in
particular whether or not audience verification was requested and whatever
the configured client id); a single-string aud, or a present azp, passes the
check. -/
theorem C3_azp_invariant (p : Payload) :
    (∀ l, p.aud = some (.list l) → l ≠ [] → p.azp = none → azpInvalid p = true) ∧
    (∀ s, p.aud = some (.str s) → azpInvalid p = false) ∧
    (∀ a, p.azp = some a → azpInvalid p = false) ∧
    (azpInvalid p = true →
      ∀ cfg disc scopes auto_error now c, c.credentials.payload = p →
        ∀ id_token, authenticate_user cfg disc scopes (some c) auto_error now ≠
          .ok (some id_token)) := by
  refine ⟨?_, ?_, ?_, ?_⟩
  · intro l h1 h2 h3
    simp only [azpInvalid, h1, h3, Option.isNone_none, Bool.and_true,
      decide_eq_true_eq]
    exact List.length_pos.mpr h2
  · intro s h
    simp [azpInvalid, h]
  · intro a ha
    unfold azpInvalid
    cases haud : p.aud with
    | none => rfl
    | some au =>
      cases au with
      | str s => rfl
      | list l => simp [ha]
  · intro hbad cfg disc scopes auto_error now c hc id_token h
    obtain ⟨-, hz⟩ := authenticate_user_ok_some cfg disc scopes c auto_error now
      id_token h
    rw [hc] at hz
    rw [hz] at hbad
    cases hbad

/-- Claim C3 witness: the concrete token of the claim, aud = ["a", "b"] and no
azp, trips the check and is rejected even with client id "a" configured. -/
theorem C3_azp_invariant_witness :
    azpInvalid ⟨none, some (.list ["a", "b"]), none, none, none⟩ = true ∧
    ∀ id_token,
      authenticate_user ⟨none, some "a", [], []⟩
        ⟨true, ⟨some [⟨some "k", "m"⟩]⟩, ["RS256"]⟩ []
        (some ⟨"bearer", ⟨some "k",
          ⟨none, some (.list ["a", "b"]), none, none, none⟩, "m", "RS256"⟩⟩)
        true 0 ≠ .ok (some id_token) :=
  ⟨(C3_azp_invariant ⟨none, some (.list ["a", "b"]), none, none, none⟩).1
      ["a", "b"] rfl (by decide) rfl,
    (C3_azp_invariant ⟨none, some (.list ["a", "b"]), none, none, none⟩).2.2.2
      ((C3_azp_invariant ⟨none, some (.list ["a", "b"]), none, none, none⟩).1
        ["a", "b"] rfl (by decide) rfl)
      ⟨none, some "a", [], []⟩ ⟨true, ⟨some [⟨some "k", "m"⟩]⟩, ["RS256"]⟩ [] true 0
      ⟨"bearer", ⟨some "k", ⟨none, some (.list ["a", "b"]), none, none, none⟩,
        "m", "RS256"⟩⟩ rfl⟩

/-- Claim C5: optional mode returns None exactly when the credential is absent
or its scheme is not "bearer" case-insensitively; with a bearer credential
present every other failure still rejects the call rather than returning
None. -/
theorem C5_optional_none_iff (cfg : AuthConfig) (disc : Discovery)
    (scopes : List String) (cred : Option Credentials) (now : Int) :
    optional cfg disc scopes cred now = .ok none ↔
      cred = none ∨ ∃ c, cred = some c ∧ lowerString c.scheme ≠ "bearer" := by
  unfold optional
  cases cred with
  | none =>
    simp [authenticate_user]
  | some c =>
    constructor
    · intro h
      by_cases hs : lowerString c.scheme = "bearer"
      · exact absurd h
          (authenticate_user_bearer_not_none cfg disc scopes c false now hs)
      · exact Or.inr ⟨c, rfl, hs⟩
    · rintro (h | ⟨c2, hc2, hs⟩)
      · cases h
      · injection hc2 with hc2
        subst hc2
        simp [authenticate_user, if_pos hs]

/-- Claim C4: the scope check passes iff the union of the statically
configured scopes and the endpoint declared scopes is contained in the set
obtained by splitting the token space-delimited scope string; an empty union
always passes; and a non-subset makes authenticate_user fail with the
distinguished insufficient-scope rejection. -/
theorem C4_scope_subset (cfgScopes epScopes : List String) (p : Payload) :
    (scopeCheck cfgScopes epScopes p = true ↔
      ∀ s ∈ requiredScopes cfgScopes epScopes, s ∈ tokenScopes p) ∧
    (requiredScopes cfgScopes epScopes = [] →
      scopeCheck cfgScopes epScopes p = true) ∧
    (∀ (cfg : AuthConfig) (disc : Discovery) (c : Credentials) (key : JWK)
        (now : Int) (auto_error : Bool),
      cfg.scopes = cfgScopes →
      lowerString c.scheme = "bearer" → disc.reachable = true →
      find_key disc.jwks c.credentials = .ok key →
      decodeAndCheckAzp cfg c.credentials key disc.algorithms now = .ok p →
      scopeCheck cfgScopes epScopes p = false →
      authenticate_user cfg disc epScopes (some c) auto_error now =
        .error (.http 401 ("Missing scope token, expected "
          ++ toString (requiredScopes cfgScopes epScopes)
          ++ " to be a subset of received " ++ toString (tokenScopes p)))) := by
  refine ⟨?_, ?_, ?_⟩
  · simp [scopeCheck, List.all_eq_true, List.elem_iff]
  · intro h
    simp [scopeCheck, h]
  · intro cfg disc c key now auto_error hcfg hs hr hf hd hsc
    subst hcfg
    simp [authenticate_user, hs, hr, hf, hd, hsc]

/-- Claim C4 witness: required scopes read and write pass against the token
scope string "read write admin", and the singleton string "read" falls short
of them. -/
theorem C4_scope_subset_witness :
    scopeCheck ["read"] ["write"] ⟨none, none, none, none, some "read write admin"⟩
      = true ∧
    ¬ ∀ s ∈ requiredScopes ["read"] ["write"],
        s ∈ tokenScopes ⟨none, none, none, none, some "read"⟩ :=
  ⟨(C4_scope_subset ["read"] ["write"]
      ⟨none, none, none, none, some "read write admin"⟩).1.mpr (by decide),
    fun hall =>
      absurd ((C4_scope_subset ["read"] ["write"]
        ⟨none, none, none, none, some "read"⟩).1.mpr hall) (by decide)⟩

/-- Claim C6: every failure inside the decode step (signature, expiry,
issuer, audience, or missing azp) surfaces as the single HTTPException 401
whose detail is the string "Unauthorized: " followed by the underlying
reason, whatever the failure kind. -/
theorem C6_unauthorized_collapse (cfg : AuthConfig) (disc : Discovery)
    (scopes : List String) (c : Credentials) (auto_error : Bool) (now : Int)
    (key : JWK) (e : DecodeError)
    (hs : lowerString c.scheme = "bearer") (hr : disc.reachable = true)
    (hf : find_key disc.jwks c.credentials = .ok key)
    (hd : decodeAndCheckAzp cfg c.credentials key disc.algorithms now = .error e) :
    authenticate_user cfg disc scopes (some c) auto_error now =
      .error (.http 401 ("Unauthorized: " ++ e.msg)) := by
  simp [authenticate_user, hs, hr, hf, hd]

/-- Claim C6 witness: a concrete expired token collapses to the 401 with the
expiry reason in the detail text. -/
theorem C6_unauthorized_collapse_witness :
    authenticate_user ⟨none, none, [], []⟩
      ⟨true, ⟨some [⟨some "k", "m"⟩]⟩, ["RS256"]⟩ []
      (some ⟨"bearer", ⟨some "k", ⟨none, none, none, some 0, none⟩, "m", "RS256"⟩⟩)
      true 5
      = .error (.http 401 ("Unauthorized: " ++ DecodeError.msg .expiredSignature)) :=
  C6_unauthorized_collapse ⟨none, none, [], []⟩
    ⟨true, ⟨some [⟨some "k", "m"⟩]⟩, ["RS256"]⟩ []
    ⟨"bearer", ⟨some "k", ⟨none, none, none, some 0, none⟩, "m", "RS256"⟩⟩
    true 5 ⟨some "k", "m"⟩ .expiredSignature (by decide) rfl (by decide) (by decide)

/-- Claim C7: an unreachable authorization server during the cache refresh
makes the call fail with the distinguished 503 provider-unreachable
rejection, which is distinct from every error the JWT-decoding step can
surface (all of which carry status 401). -/
theorem C7_provider_unreachable (cfg : AuthConfig) (disc : Discovery)
    (scopes : List String) (c : Credentials) (auto_error : Bool) (now : Int)
    (hs : lowerString c.scheme = "bearer") (hr : disc.reachable = false) :
    authenticate_user cfg disc scopes (some c) auto_error now =
      .error (.http 503 "Could not reach auth server") ∧
    ∀ s : String, (AuthError.http 503 "Could not reach auth server") ≠
      .http 401 ("Unauthorized: " ++ s) := by
  constructor
  · simp [authenticate_user, hs, hr]
  · intro s h
    injection h with h1 h2
    exact absurd h1 (by decide)

/-- Claim C7 witness: a concrete call against an unreachable provider. -/
theorem C7_provider_unreachable_witness :
    authenticate_user ⟨none, none, [], []⟩ ⟨false, ⟨none⟩, []⟩ []
      (some ⟨"Bearer", ⟨none, ⟨none, none, none, none, none⟩, "m", "RS256"⟩⟩)
      true 0
      = .error (.http 503 "Could not reach auth server") :=
  (C7_provider_unreachable ⟨none, none, [], []⟩ ⟨false, ⟨none⟩, []⟩ []
    ⟨"Bearer", ⟨none, ⟨none, none, none, none, none⟩, "m", "RS256"⟩⟩
    true 0 (by decide) rfl).1

/-- Claim C8: issuer verification happens iff an issuer was configured and
audience verification iff a client id was configured, as wired by the
verify_iss and verify_aud options of the decode call: with neither
configured a token passing signature and expiry decodes whatever its iss and
aud claims; with an issuer configured a decoded token has exactly that iss;
with a client id configured a decoded token has it present in aud. -/
theorem C8_conditional_claim_checks (cfg : AuthConfig) (tok : Token) (key : JWK)
    (algs : List String) (now : Int) :
    (cfg.issuer = none →
      decodeAsConfigured cfg tok key algs now ≠ .error .invalidIssuer) ∧
    (cfg.client_id = none →
      decodeAsConfigured cfg tok key algs now ≠ .error .invalidAudience) ∧
    (cfg.issuer = none → cfg.client_id = none →
      sigOk tok key algs = true → expOk tok.payload now = true →
      decodeAsConfigured cfg tok key algs now = .ok tok.payload) ∧
    (∀ i p, cfg.issuer = some i →
      decodeAsConfigured cfg tok key algs now = .ok p → p.iss = some i) ∧
    (∀ cid p, cfg.client_id = some cid →
      decodeAsConfigured cfg tok key algs now = .ok p →
        ∃ a, p.aud = some a ∧ audContains a cid = true) := by
  refine ⟨?_, ?_, ?_, ?_, ?_⟩
  · intro h
    simp only [decodeAsConfigured, jwtDecode, h, Option.isSome_none]
    split_ifs <;> simp_all
  · intro h
    simp only [decodeAsConfigured, jwtDecode, h, Option.isSome_none]
    split_ifs <;> simp_all
  · intro h1 h2 hsig hexp
    simp [decodeAsConfigured, jwtDecode, h1, h2, hsig, hexp]
  · intro i p hi hok
    have hp : p = tok.payload := jwtDecode_ok _ _ _ _ _ _ _ _ hok
    subst hp
    cases hio : issOk cfg.issuer tok.payload with
    | true => simpa [issOk, hi] using hio
    | false =>
      exfalso
      cases hgs : sigOk tok key algs with
      | false =>
        have hv : decodeAsConfigured cfg tok key algs now =
            .error .signatureInvalid := by
          simp [decodeAsConfigured, jwtDecode, hgs]
        rw [hv] at hok
        exact Except.noConfusion hok
      | true =>
        cases hge : expOk tok.payload now with
        | false =>
          have hv : decodeAsConfigured cfg tok key algs now =
              .error .expiredSignature := by
            simp [decodeAsConfigured, jwtDecode, hgs, hge]
          rw [hv] at hok
          exact Except.noConfusion hok
        | true =>
          have hio2 : issOk (some i) tok.payload = false := by
            rw [← hi]
            exact hio
          have hv : decodeAsConfigured cfg tok key algs now =
              .error .invalidIssuer := by
            simp [decodeAsConfigured, jwtDecode, hgs, hge, hi, hio2]
          rw [hv] at hok
          exact Except.noConfusion hok
  · intro cid p hcid hok
    have hp : p = tok.payload := jwtDecode_ok _ _ _ _ _ _ _ _ hok
    subst hp
    cases hao : audOk cfg.client_id tok.payload with
    | true =>
      cases haud : tok.payload.aud with
      | none =>
        have hfalse : audOk (some cid) tok.payload = false := by
          simp [audOk, haud]
        rw [hcid, hfalse] at hao
        exact Bool.noConfusion hao
      | some a =>
        refine ⟨a, rfl, ?_⟩
        have hcont : audOk (some cid) tok.payload = audContains a cid := by
          simp [audOk, haud]
        rw [hcid, hcont] at hao
        exact hao
    | false =>
      exfalso
      cases hgs : sigOk tok key algs with
      | false =>
        have hv : decodeAsConfigured cfg tok key algs now =
            .error .signatureInvalid := by
          simp [decodeAsConfigured, jwtDecode, hgs]
        rw [hv] at hok
        exact Except.noConfusion hok
      | true =>
        cases hge : expOk tok.payload now with
        | false =>
          have hv : decodeAsConfigured cfg tok key algs now =
              .error .expiredSignature := by
            simp [decodeAsConfigured, jwtDecode, hgs, hge]
          rw [hv] at hok
          exact Except.noConfusion hok
        | true =>
          cases hiss : (cfg.issuer.isSome && ! issOk cfg.issuer tok.payload) with
          | true =>
            have hv : decodeAsConfigured cfg tok key algs now =
                .error .invalidIssuer := by
              simp only [decodeAsConfigured, jwtDecode, hgs, hge, hiss]
              simp
            rw [hv] at hok
            exact Except.noConfusion hok
          | false =>
            have hao2 : audOk (some cid) tok.payload = false := by
              rw [← hcid]
              exact hao
            have hv : decodeAsConfigured cfg tok key algs now =
                .error .invalidAudience := by
              simp only [decodeAsConfigured, jwtDecode, hgs, hge, hiss]
              simp [hcid, hao2]
            rw [hv] at hok
            exact Except.noConfusion hok

/-- Claim C8 witness: with no issuer and no client id configured, a token
with an arbitrary iss and no aud decodes successfully (both checks are
skipped); with issuer configured, a decoded token carries exactly it. -/
theorem C8_conditional_claim_checks_witness :
    decodeAsConfigured ⟨none, none, [], []⟩
      ⟨some "k", ⟨some "anything", none, none, none, none⟩, "m", "RS256"⟩
      ⟨some "k", "m"⟩ ["RS256"] 0
      = .ok ⟨some "anything", none, none, none, none⟩ :=
  (C8_conditional_claim_checks ⟨none, none, [], []⟩
    ⟨some "k", ⟨some "anything", none, none, none, none⟩, "m", "RS256"⟩
    ⟨some "k", "m"⟩ ["RS256"] 0).2.2.1 rfl rfl (by decide) (by decide)

/-- Claim C9: identity construction from the verified claim mapping checks
the model required fields and fails with the dedicated
IdentityConstructionError when one is missing. -/
theorem C9_identity_construction (fields : List String) (p : Payload)
    (f : String) (hf : f ∈ fields) (hmiss : p.hasClaim f = false) :
    constructIdentity fields p = .error .identityConstructionError := by
  have hall : fields.all p.hasClaim = false := by
    rw [List.all_eq_false]
    exact ⟨f, hf, by simp [hmiss]⟩
  simp [constructIdentity, hall]

/-- Claim C9 witness: a payload lacking the required exp field is rejected at
construction with the dedicated error. -/
theorem C9_identity_construction_witness :
    constructIdentity ["exp"] ⟨none, none, none, none, none⟩
      = .error .identityConstructionError :=
  C9_identity_construction ["exp"] ⟨none, none, none, none, none⟩ "exp"
    (by decide) (by decide)

/-- Claim C10: a payload without a scope claim splits into the one-element
list containing only the empty string, so the scope check passes exactly when
every required scope is the empty string (in particular when none are
required), and fails for any nonempty required scope. -/
theorem C10_missing_scope_claim (p : Payload) (hnone : p.scope = none)
    (cfgScopes epScopes : List String) :
    tokenScopes p = [""] ∧
    (scopeCheck cfgScopes epScopes p = true ↔
      ∀ s ∈ requiredScopes cfgScopes epScopes, s = "") ∧
    ((∃ s ∈ requiredScopes cfgScopes epScopes, s ≠ "") →
      scopeCheck cfgScopes epScopes p = false) := by
  have htok : tokenScopes p = [""] := by
    simp only [tokenScopes, hnone, Option.getD_none]
    decide
  refine ⟨htok, ?_, ?_⟩
  · simp [scopeCheck, htok, List.all_eq_true, List.elem_iff]
  · rintro ⟨s, hs, hne⟩
    cases hsc : scopeCheck cfgScopes epScopes p with
    | false => rfl
    | true =>
      have := by
        simpa [scopeCheck, htok, List.all_eq_true, List.elem_iff] using hsc
      exact absurd (this s hs) hne

/-- Claim C10 witness: with the scope claim absent, requiring no scopes
passes and requiring the scope read fails. -/
theorem C10_missing_scope_claim_witness :
    tokenScopes ⟨none, none, none, none, none⟩ = [""] ∧
    scopeCheck [] [] ⟨none, none, none, none, none⟩ = true ∧
    scopeCheck ["read"] [] ⟨none, none, none, none, none⟩ = false :=
  ⟨(C10_missing_scope_claim ⟨none, none, none, none, none⟩ rfl [] []).1,
    (C10_missing_scope_claim ⟨none, none, none, none, none⟩ rfl [] []).2.1.mpr
      (by decide),
    (C10_missing_scope_claim ⟨none, none, none, none, none⟩ rfl ["read"] []).2.2
      ⟨"read", by decide, by decide⟩⟩

end ThirdPartyAuth
